import Mathlib

/-!
Verification development for the RefScore backend (`backend/deepsearch_api.py`).

The Python module is shallowly embedded: WebSocket session handles become
natural numbers, the mutable module globals become an explicit state record
threaded through the functions, exceptions become an explicit result type,
and the external DEEPSEARCH collaborators (`NLPProcessor`, `DocumentRefiner`
and the outcome of each refinement stage) are driven by an environment record
describing how each external call behaves.
-/

namespace RefScore

/-- A Python exception as observed by the API layer: either a FastAPI
`HTTPException` carrying a status code and a detail string, or any other
exception carrying its `str(e)` message. -/
inductive Exc where
  | http (statusCode : Nat) (detail : String)
  | plain (message : String)
deriving DecidableEq, Repr

/-- Result of running a Python snippet: a normal return value or a raised
exception propagating to the caller. -/
inductive PyResult (α : Type) where
  | ok (val : α)
  | exc (e : Exc)
deriving DecidableEq, Repr

/-- Modelled from the spec: the DEEPSEARCH settings schema behind
`DEFAULT_SETTINGS` lives in the `DEEPSEARCH` module, which is not part of the
repository sources; the API code accesses exactly the two keys
`search_settings.max_results` and `privacy_settings.cache_enabled`, and the
spec describes the settings as a full configuration copy, so the remaining
configuration is abstracted into opaque `rest` fields. -/
structure SearchSettings where
  max_results : Int
  restOfSearchSettings : Nat
deriving DecidableEq, Repr

/-- The `privacy_settings` sub-dictionary: the one key the API touches plus
the abstracted remainder. -/
structure PrivacySettings where
  cache_enabled : Bool
  restOfPrivacySettings : Nat
deriving DecidableEq, Repr

/-- The engine settings dictionary (`DEFAULT_SETTINGS` and its per-request
deep copies). -/
structure EngineSettings where
  search_settings : SearchSettings
  privacy_settings : PrivacySettings
  restOfSettings : Nat
deriving DecidableEq, Repr

/-- The external `NLPProcessor(settings)` object; the model records only the
settings it was constructed with, which is what identifies a particular
constructed instance. -/
structure NLPProcessor where
  settings : EngineSettings
deriving DecidableEq, Repr

/-- The external `DocumentRefiner(settings, view, nlp_processor=...)` wrapper:
per-job settings plus the shared processor it borrows. -/
structure DocumentRefiner where
  settings : EngineSettings
  nlp_processor : NLPProcessor
deriving DecidableEq, Repr

/-- The module-global mutable state of `deepsearch_api.py`: the
`DEFAULT_SETTINGS` object imported from DEEPSEARCH and the global
`nlp_processor` cache slot. -/
structure GState where
  default_settings : EngineSettings
  nlp_processor : Option NLPProcessor
deriving DecidableEq, Repr

/-- Body of a `POST /refine` request after pydantic validation
(`RefineRequest` in the source). -/
structure RefineRequest where
  manuscriptText : String
  maxResults : Option Int
  noCache : Option Bool
deriving DecidableEq, Repr

/-- Body of a successful `POST /refine` response (`RefineResponse`). -/
structure RefineResponse where
  processedText : String
  bibliographyText : String
  bibtex : String
deriving DecidableEq, Repr

/-- A broadcastable progress event as produced by `BroadcastingView`.
Percentages are recorded in hundredths (0, 98, 100) since the claims only
depend on which events are emitted. -/
inductive Event where
  | progress (percentHundredths : Nat) (message : String)
  | error (message : String)
  | ping
deriving DecidableEq, Repr

/-- Environment describing the behaviour of the external collaborators during
one `refine` call: whether `NLPProcessor(settings)` construction succeeds and
with what error text otherwise, the outcome of each refinement stage, and
whether scheduling the `show_error` broadcast itself raises. -/
structure Env where
  nlpOk : Bool
  nlpErr : String
  refineDoc : PyResult String
  genBibliography : PyResult String
  genBibtex : PyResult String
  showErrorOk : Bool
deriving DecidableEq, Repr

/-- Python `str.strip()` on the character list of a string: drop whitespace
from both ends. -/
def pyStrip (cs : List Char) : List Char :=
  ((cs.dropWhile Char.isWhitespace).reverse.dropWhile Char.isWhitespace).reverse

/-- `get_refiner(settings=None)`: use the global `nlp_processor` if present,
otherwise construct one from the given settings and store it in the global
slot; construction failure is re-raised as a 503 `HTTPException`.  Returns the
updated global state together with the result. -/
def get_refiner (env : Env) (st : GState) (settingsArg : Option EngineSettings) :
    GState × PyResult DocumentRefiner :=
  let settings := settingsArg.getD st.default_settings
  match st.nlp_processor with
  | some processor => (st, .ok ⟨settings, processor⟩)
  | none =>
    if env.nlpOk then
      let processor : NLPProcessor := ⟨settings⟩
      ({ st with nlp_processor := some processor }, .ok ⟨settings, processor⟩)
    else
      (st, .exc (.http 503 ("NLP processor unavailable: " ++ env.nlpErr)))

/-- Lines 128-138 of `refine`: deep-copy `DEFAULT_SETTINGS`, override
`max_results` when `maxResults` is a positive integer, and set
`cache_enabled` to `False` when `noCache` is the boolean `True`. -/
def applyOverrides (defaults : EngineSettings) (req : RefineRequest) : EngineSettings :=
  let settings := defaults
  let settings :=
    match req.maxResults with
    | some m =>
      if 0 < m then
        { settings with search_settings := { settings.search_settings with max_results := m } }
      else settings
    | none => settings
  match req.noCache with
  | some b =>
    if b then
      { settings with privacy_settings := { settings.privacy_settings with cache_enabled := false } }
    else settings
  | none => settings

/-- The observable outcome of one `refine` call: final global state, the
sequence of events handed to the broadcasting view, and the HTTP result. -/
structure RefineOutput where
  state : GState
  events : List Event
  result : PyResult RefineResponse
deriving DecidableEq, Repr

/-- The `update_progress(0.0, ...)` event emitted at the start of a job. -/
def startEvent : Event := .progress 0 "Starting DeepSearch refinement..."

/-- The `update_progress(0.98, ...)` event emitted before finalization. -/
def bibEvent : Event := .progress 98 "Generating bibliography and BibTeX..."

/-- The `update_progress(1.0, ...)` completion event. -/
def doneEvent : Event := .progress 100 "DeepSearch complete"

/-- The two `except` clauses of `refine`: an `HTTPException` is re-raised
unchanged; any other exception triggers a best-effort `show_error` (its own
failure swallowed) and is converted to a 500 `HTTPException` carrying
`str(e)`. -/
def refineExceptClauses (st : GState) (evs : List Event) (e : Exc) (showErrorOk : Bool) :
    RefineOutput :=
  match e with
  | .http code detail => ⟨st, evs, .exc (.http code detail)⟩
  | .plain msg =>
    let evs2 := if showErrorOk then evs ++ [Event.error ("Refinement failed: " ++ msg)] else evs
    ⟨st, evs2, .exc (.http 500 msg)⟩

/-- The `try` block of `refine` (lines 140-159): emit the start progress
event, run the three stages on the acquired refiner, emit the milestone and
completion events, and map any stage failure through the `except` clauses. -/
def refineTryBlock (env : Env) (st1 : GState) : RefineOutput :=
  match env.refineDoc with
  | .exc e => refineExceptClauses st1 [startEvent] e env.showErrorOk
  | .ok processed =>
    match env.genBibliography with
    | .exc e => refineExceptClauses st1 [startEvent, bibEvent] e env.showErrorOk
    | .ok bib =>
      match env.genBibtex with
      | .exc e => refineExceptClauses st1 [startEvent, bibEvent] e env.showErrorOk
      | .ok bibtex =>
        ⟨st1, [startEvent, bibEvent, doneEvent], .ok ⟨processed, bib, bibtex⟩⟩

/-- The `POST /refine` handler: short-circuit on empty or whitespace-only
manuscript text, build per-request settings, acquire a refiner (constructing
and caching the NLP processor on first use; a failure there propagates with
no event emitted), then run the try block. -/
def refine (env : Env) (st : GState) (req : RefineRequest) : RefineOutput :=
  if req.manuscriptText.data = [] ∨ pyStrip req.manuscriptText.data = [] then
    ⟨st, [], .ok ⟨"", "", ""⟩⟩
  else
    match get_refiner env st (some (applyOverrides st.default_settings req)) with
    | (st1, .exc e) => ⟨st1, [], .exc e⟩
    | (st1, .ok _refiner) => refineTryBlock env st1

/-- `ConnectionManager.disconnect`: Python `list.remove` removes the first
occurrence of the element and raises `ValueError` (modelled as `none`) when
the element is absent. -/
def disconnect (active_connections : List Nat) (websocket : Nat) : Option (List Nat) :=
  if websocket ∈ active_connections then some (active_connections.erase websocket) else none

/-- One `connection.send_text(message)` call: succeeds or raises, as
prescribed by the per-connection oracle `sendOk`. -/
def send_text (sendOk : Nat → Bool) (connection : Nat) : PyResult Unit :=
  if sendOk connection then .ok () else .exc (.plain "send failed")

/-- `ConnectionManager.broadcast`: iterate over the connections, wrapping each
send in `try/except: pass`; returns the list of connections that actually
received the message.  (The sequential, no-concurrent-mutation view; the
interleaved view is modelled separately below.) -/
def broadcast (sendOk : Nat → Bool) (message : String) :
    List Nat → PyResult (List Nat)
  | [] => .ok []
  | connection :: rest =>
    let delivered :=
      match send_text sendOk connection with
      | .ok _ => [connection]
      | .exc _ => []
    match broadcast sendOk message rest with
    | .ok ds => .ok (delivered ++ ds)
    | .exc e => .exc e

/-- One observable turn of the `websocket_endpoint` loop body, prescribed by
the transport: an inbound text arrives within the timeout; the receive times
out and the ping send succeeds; the receive (or the ping send) raises
`WebSocketDisconnect`; or the ping send raises some other exception. -/
inductive WsEvent where
  | recvText
  | timeoutPingOk
  | recvDisconnectExc
  | timeoutPingDisconnectExc
  | timeoutPingOtherExc
deriving DecidableEq, Repr

/-- How the `websocket_endpoint` coroutine left its loop: still looping when
the observed trace ends, terminated by the `except WebSocketDisconnect`
handler (which runs `manager.disconnect`), or terminated by an exception that
escaped the handler without any cleanup. -/
inductive WsOutcome where
  | stillRunning
  | handledDisconnect
  | uncaughtException
deriving DecidableEq, Repr

/-- The `while True` loop of `websocket_endpoint`, driven by a finite trace of
transport events; returns the registry and how the loop ended.  Only
`WebSocketDisconnect` is caught by the surrounding `try`; the handler calls
`manager.disconnect`, whose own `ValueError` (absent session) would escape. -/
def websocket_loop (websocket : Nat) : List WsEvent → List Nat → List Nat × WsOutcome
  | [], conns => (conns, .stillRunning)
  | ev :: rest, conns =>
    match ev with
    | .recvText => websocket_loop websocket rest conns
    | .timeoutPingOk => websocket_loop websocket rest conns
    | .recvDisconnectExc =>
      match disconnect conns websocket with
      | some conns2 => (conns2, .handledDisconnect)
      | none => (conns, .uncaughtException)
    | .timeoutPingDisconnectExc =>
      match disconnect conns websocket with
      | some conns2 => (conns2, .handledDisconnect)
      | none => (conns, .uncaughtException)
    | .timeoutPingOtherExc => (conns, .uncaughtException)

/-- `websocket_endpoint`: `manager.connect` accepts the handshake and appends
the session to the registry, then the keepalive loop runs on the given
transport trace. -/
def websocket_endpoint (websocket : Nat) (trace : List WsEvent) (conns : List Nat) :
    List Nat × WsOutcome :=
  websocket_loop websocket trace (conns ++ [websocket])

/-- State of one in-progress `broadcast` call under concurrent registry
mutation: the live `active_connections` list, the Python list-iterator index,
and the sessions that have received the message so far. -/
structure BroadcastState where
  conns : List Nat
  idx : Nat
  delivered : List Nat
deriving DecidableEq, Repr

/-- One interleaving step while a broadcast is in progress: the broadcast
coroutine performs its next iteration, or another coroutine unregisters a
session (the `await connection.send_text` in the loop body is the suspension
point that lets this interleave). -/
inductive BAction where
  | sendStep
  | disconnectStep (s : Nat)
deriving DecidableEq, Repr

/-- One iteration of the `for connection in self.active_connections` loop as
executed by Python's list iterator: if the saved index is still within the
live list, fetch that element, try to send to it (failure swallowed), and
advance the index; otherwise the iterator is exhausted and the state is
unchanged. -/
def bsend (sendOk : Nat → Bool) (st : BroadcastState) : BroadcastState :=
  if h : st.idx < st.conns.length then
    let connection := st.conns.get ⟨st.idx, h⟩
    { conns := st.conns, idx := st.idx + 1,
      delivered := st.delivered ++ (if sendOk connection then [connection] else []) }
  else st

/-- Apply one interleaving action; `none` models the `ValueError` raised by
`list.remove` when a disconnect targets an absent session. -/
def bstep (sendOk : Nat → Bool) (st : BroadcastState) : BAction → Option BroadcastState
  | .sendStep => some (bsend sendOk st)
  | .disconnectStep s =>
    match disconnect st.conns s with
    | some conns2 => some { st with conns := conns2 }
    | none => none

/-- Run a schedule of interleaved actions from a broadcast-in-progress
state. -/
def brun (sendOk : Nat → Bool) : List BAction → BroadcastState → Option BroadcastState
  | [], st => some st
  | a :: rest, st =>
    match bstep sendOk st a with
    | some st2 => brun sendOk rest st2
    | none => none

/-- A schedule is disconnect-valid when every `disconnectStep` targets a
session that is registered at the moment it runs (the situation of a session
unregistering itself during a broadcast). -/
def disconnectsValid (sendOk : Nat → Bool) : List BAction → BroadcastState → Bool
  | [], _ => true
  | BAction.sendStep :: rest, st => disconnectsValid sendOk rest (bsend sendOk st)
  | BAction.disconnectStep s :: rest, st =>
    decide (s ∈ st.conns) &&
      disconnectsValid sendOk rest { st with conns := st.conns.erase s }

/-- A sample concrete settings object used by the concrete witnesses. -/
def sampleSettings : EngineSettings := ⟨⟨25, 3⟩, ⟨true, 4⟩, 5⟩

/-- A sample global state with an empty engine cache. -/
def sampleState : GState := ⟨sampleSettings, none⟩

/-- An environment in which every external call behaves well. -/
def happyEnv : Env :=
  ⟨true, "", .ok "Refined document text", .ok "Bibliography text", .ok "@article", true⟩

theorem pyStrip_nil : pyStrip [] = [] := rfl

theorem refineExceptClauses_state (st : GState) (evs : List Event) (e : Exc) (b : Bool) :
    (refineExceptClauses st evs e b).state = st := by
  cases e <;> rfl

theorem get_refiner_cached (env : Env) (st : GState) (o : Option EngineSettings)
    (p : NLPProcessor) (hp : st.nlp_processor = some p) :
    get_refiner env st o = (st, .ok ⟨o.getD st.default_settings, p⟩) := by
  simp [get_refiner, hp]

theorem get_refiner_constructs (env : Env) (st : GState) (o : Option EngineSettings)
    (hnone : st.nlp_processor = none) (hok : env.nlpOk = true) :
    get_refiner env st o =
      ({ st with nlp_processor := some ⟨o.getD st.default_settings⟩ },
       .ok ⟨o.getD st.default_settings, ⟨o.getD st.default_settings⟩⟩) := by
  simp [get_refiner, hnone, hok]

theorem get_refiner_fails (env : Env) (st : GState) (o : Option EngineSettings)
    (hnone : st.nlp_processor = none) (hbad : env.nlpOk = false) :
    get_refiner env st o =
      (st, .exc (.http 503 ("NLP processor unavailable: " ++ env.nlpErr))) := by
  simp [get_refiner, hnone, hbad]

theorem nonempty_guard_false (req : RefineRequest)
    (hne : pyStrip req.manuscriptText.data ≠ []) :
    ¬ (req.manuscriptText.data = [] ∨ pyStrip req.manuscriptText.data = []) := by
  rintro (h0 | h1)
  · exact hne (by rw [h0]; rfl)
  · exact hne h1

/-- C1: a submit request whose manuscript text is empty or whitespace-only
returns the all-empty result immediately, with the global state untouched (in
particular the engine is neither accessed nor constructed, for every possible
engine-construction behaviour) and no progress event emitted. -/
theorem refine_empty_input_short_circuit (env : Env) (st : GState) (req : RefineRequest)
    (h : pyStrip req.manuscriptText.data = []) :
    refine env st req = ⟨st, [], .ok ⟨"", "", ""⟩⟩ := by
  unfold refine
  rw [if_pos (Or.inr h)]

/-- Witness for C1 at manuscript text `"   "`, with an engine cache that is
empty and an environment in which construction would fail: the call still
succeeds with the empty triple and no events. -/
theorem refine_empty_input_short_circuit_witness :
    pyStrip (String.data "   ") = [] ∧
    refine ⟨false, "engine down", .ok "", .ok "", .ok "", true⟩ sampleState
        ⟨"   ", some 10, some true⟩ =
      ⟨sampleState, [], .ok ⟨"", "", ""⟩⟩ :=
  ⟨by decide,
   refine_empty_input_short_circuit ⟨false, "engine down", .ok "", .ok "", .ok "", true⟩
     sampleState ⟨"   ", some 10, some true⟩ (by decide)⟩

/-- C3: `broadcast` never raises and delivers the message exactly to the
registered sessions whose individual send succeeds, for every session list
(including the empty one) and every per-session send behaviour; a failing
send is swallowed and does not abort delivery to the remaining sessions. -/
theorem broadcast_total_and_delivers (sendOk : Nat → Bool) (message : String)
    (conns : List Nat) :
    broadcast sendOk message conns = .ok (conns.filter (fun c => sendOk c)) := by
  induction conns with
  | nil => rfl
  | cons c rest ih =>
    unfold broadcast
    rw [ih]
    cases h : sendOk c <;> simp [send_text, h, List.filter_cons]

/-- C5: the settings used for a job are the defaults with `max_results`
overridden exactly when `maxResults` is present and positive, `cache_enabled`
forced to `false` exactly when `noCache` is the boolean `true`, and every
other part of the configuration copied unchanged; invalid override values
fall back to the defaults without any error. -/
theorem applyOverrides_exact (defaults : EngineSettings) (req : RefineRequest) :
    (applyOverrides defaults req).search_settings.max_results =
      (match req.maxResults with
       | some m => if 0 < m then m else defaults.search_settings.max_results
       | none => defaults.search_settings.max_results) ∧
    (applyOverrides defaults req).search_settings.restOfSearchSettings =
      defaults.search_settings.restOfSearchSettings ∧
    (applyOverrides defaults req).privacy_settings.cache_enabled =
      (if req.noCache = some true then false else defaults.privacy_settings.cache_enabled) ∧
    (applyOverrides defaults req).privacy_settings.restOfPrivacySettings =
      defaults.privacy_settings.restOfPrivacySettings ∧
    (applyOverrides defaults req).restOfSettings = defaults.restOfSettings := by
  obtain ⟨t, mr, nc⟩ := req
  rcases mr with _ | m <;> rcases nc with _ | b
  · simp [applyOverrides]
  · cases b <;> simp [applyOverrides]
  · by_cases hm : 0 < m <;> simp [applyOverrides, hm]
  · cases b <;> by_cases hm : 0 < m <;> simp [applyOverrides, hm]

theorem refineTryBlock_state (env : Env) (st1 : GState) :
    (refineTryBlock env st1).state = st1 := by
  unfold refineTryBlock
  rcases env.refineDoc with d | e
  · rcases env.genBibliography with b | e
    · rcases env.genBibtex with x | e
      · rfl
      · exact refineExceptClauses_state _ _ _ _
    · exact refineExceptClauses_state _ _ _ _
  · exact refineExceptClauses_state _ _ _ _

theorem refine_state_cases (env : Env) (st : GState) (req : RefineRequest) :
    (refine env st req).state = st ∨
    (refine env st req).state =
      { st with nlp_processor := some ⟨applyOverrides st.default_settings req⟩ } := by
  unfold refine
  split
  · exact Or.inl rfl
  · rcases hp : st.nlp_processor with _ | p
    · cases hok : env.nlpOk
      · rw [get_refiner_fails env st _ hp hok]
        exact Or.inl rfl
      · rw [get_refiner_constructs env st _ hp hok]
        exact Or.inr (refineTryBlock_state _ _)
    · rw [get_refiner_cached env st _ p hp]
      exact Or.inl (refineTryBlock_state _ _)

theorem refine_state_cached (env : Env) (st : GState) (req : RefineRequest)
    (p : NLPProcessor) (hp : st.nlp_processor = some p) :
    (refine env st req).state = st := by
  unfold refine
  split
  · rfl
  · rw [get_refiner_cached env st _ p hp]
    exact refineTryBlock_state _ _

theorem refine_state_constructs (env : Env) (st : GState) (req : RefineRequest)
    (hne : pyStrip req.manuscriptText.data ≠ [])
    (hnone : st.nlp_processor = none) (hok : env.nlpOk = true) :
    (refine env st req).state =
      { st with nlp_processor := some ⟨applyOverrides st.default_settings req⟩ } := by
  unfold refine
  rw [if_neg (nonempty_guard_false req hne),
    get_refiner_constructs env st _ hnone hok]
  exact refineTryBlock_state _ _

/-- C6: no submit request, whatever its input and whatever the behaviour of
the external collaborators (success or failure), ever changes the module's
default settings object: each request works on a copy. -/
theorem refine_preserves_default_settings (env : Env) (st : GState) (req : RefineRequest) :
    (refine env st req).state.default_settings = st.default_settings := by
  rcases refine_state_cases env st req with h | h <;> rw [h]

/-- C2 counterexample: unregistering is not idempotent.  With the registry
holding session 5 once, the first `disconnect` removes it and the second
`disconnect` raises `ValueError` (modelled as `none`) instead of being a
no-op. -/
theorem disconnect_second_call_raises :
    disconnect [5] 5 = some [] ∧ disconnect ([] : List Nat) 5 = none := by decide

/-- C2 amended: `disconnect` removes exactly one occurrence of the session
when it is registered, and raises `ValueError` (here `none`) — rather than
being a no-op — when it is not; hence calling it twice in a row raises on the
second call unless the session was registered at least twice. -/
theorem disconnect_amended (l : List Nat) (s : Nat) :
    (s ∈ l → disconnect l s = some (l.erase s) ∧ (l.erase s).count s + 1 = l.count s) ∧
    (s ∉ l → disconnect l s = none) := by
  constructor
  · intro h
    refine ⟨by simp [disconnect, h], ?_⟩
    rw [List.count_erase_self]
    exact Nat.sub_add_cancel (List.count_pos_iff.mpr h)
  · intro h
    simp [disconnect, h]

/-- Witness for C2's amended statement at a registry holding session 5 twice
and at the empty registry. -/
theorem disconnect_amended_witness :
    (disconnect [5, 5] 5 = some ([5, 5].erase 5) ∧
      ([5, 5].erase 5).count 5 + 1 = [5, 5].count 5) ∧
    disconnect ([] : List Nat) 7 = none :=
  ⟨(disconnect_amended [5, 5] 5).1 (by decide), (disconnect_amended [] 7).2 (by decide)⟩

/-- Every session's send succeeds: used by the concrete interleaving runs. -/
def allSendsOk : Nat → Bool := fun _ => true

/-- C4 counterexample: `broadcast` iterates the live list, not a snapshot.
From registry `[1, 2, 3]`, after delivering to session 1, session 1
unregisters; the list iterator's index now lands on session 3, so session 2 —
registered at call time and still registered at the end — never receives the
message even though every send succeeds. -/
theorem broadcast_skips_on_concurrent_disconnect :
    brun allSendsOk [BAction.sendStep, BAction.disconnectStep 1, BAction.sendStep]
        ⟨[1, 2, 3], 0, []⟩ = some ⟨[2, 3], 2, [1, 3]⟩ ∧
    2 ∈ ([1, 2, 3] : List Nat) ∧ 2 ∈ ([2, 3] : List Nat) ∧ 2 ∉ ([1, 3] : List Nat) := by
  decide

/-- C4 amended: `broadcast` iterates over the live session list by index
rather than over a snapshot; a session unregistering concurrently during
delivery never crashes the broadcast (every schedule whose disconnects target
registered sessions runs to completion), but delivery may be skipped for a
still-registered session, as the counterexample shows. -/
theorem brun_never_crashes (sendOk : Nat → Bool) (acts : List BAction)
    (st : BroadcastState) (h : disconnectsValid sendOk acts st = true) :
    ∃ st2, brun sendOk acts st = some st2 := by
  induction acts generalizing st with
  | nil => exact ⟨st, rfl⟩
  | cons a rest ih =>
    cases a with
    | sendStep =>
      rw [disconnectsValid] at h
      simpa [brun, bstep] using ih _ h
    | disconnectStep s =>
      rw [disconnectsValid] at h
      obtain ⟨hs, hrest⟩ := Bool.and_eq_true_iff.mp h
      have hmem : s ∈ st.conns := of_decide_eq_true hs
      simp only [brun, bstep, disconnect, if_pos hmem]
      exact ih _ hrest

/-- Witness for C4's amended statement on the schedule of the counterexample:
it is disconnect-valid and the run completes. -/
theorem brun_never_crashes_witness :
    ∃ st2,
      brun allSendsOk [BAction.sendStep, BAction.disconnectStep 1, BAction.sendStep]
        ⟨[1, 2, 3], 0, []⟩ = some st2 :=
  brun_never_crashes allSendsOk [BAction.sendStep, BAction.disconnectStep 1, BAction.sendStep]
    ⟨[1, 2, 3], 0, []⟩ (by decide)

/-- C9 counterexample: a ping-send failure that is not a
`WebSocketDisconnect` escapes the keepalive loop without any cleanup — the
session's coroutine is destroyed while the session stays in the active set. -/
theorem websocket_ping_failure_leaks_session :
    websocket_endpoint 7 [WsEvent.timeoutPingOtherExc] [] =
      ([7], WsOutcome.uncaughtException) ∧
    7 ∈ ([7] : List Nat) := by decide

theorem websocket_loop_registry (websocket : Nat) (trace : List WsEvent)
    (conns : List Nat) (h : conns.count websocket = 1) :
    ((websocket_loop websocket trace conns).2 = WsOutcome.handledDisconnect →
      (websocket_loop websocket trace conns).1.count websocket = 0) ∧
    ((websocket_loop websocket trace conns).2 ≠ WsOutcome.handledDisconnect →
      (websocket_loop websocket trace conns).1.count websocket = 1) := by
  induction trace generalizing conns with
  | nil =>
    refine ⟨fun hout => ?_, fun _ => h⟩
    simp [websocket_loop] at hout
  | cons ev rest ih =>
    have hmem : websocket ∈ conns := List.count_pos_iff.mp (by omega)
    cases ev with
    | recvText => simpa [websocket_loop] using ih conns h
    | timeoutPingOk => simpa [websocket_loop] using ih conns h
    | recvDisconnectExc =>
      simp only [websocket_loop, disconnect, if_pos hmem]
      refine ⟨fun _ => ?_, fun hne => absurd rfl hne⟩
      rw [List.count_erase_self, h]
    | timeoutPingDisconnectExc =>
      simp only [websocket_loop, disconnect, if_pos hmem]
      refine ⟨fun _ => ?_, fun hne => absurd rfl hne⟩
      rw [List.count_erase_self, h]
    | timeoutPingOtherExc =>
      simp only [websocket_loop]
      exact ⟨fun hout => by simp at hout, fun _ => h⟩

/-- C9 amended: a freshly registered session is removed from the registry
exactly once when its destruction surfaces as a `WebSocketDisconnect` (from
the receive or from the ping send); any other ping-send failure, and a loop
that is still running, leaves the session registered — so a session destroyed
by a non-disconnect send failure is never removed. -/
theorem websocket_endpoint_amended (websocket : Nat) (trace : List WsEvent)
    (conns : List Nat) (h : websocket ∉ conns) :
    ((websocket_endpoint websocket trace conns).2 = WsOutcome.handledDisconnect →
      (websocket_endpoint websocket trace conns).1.count websocket = 0) ∧
    ((websocket_endpoint websocket trace conns).2 ≠ WsOutcome.handledDisconnect →
      (websocket_endpoint websocket trace conns).1.count websocket = 1) := by
  have hc : (conns ++ [websocket]).count websocket = 1 := by
    rw [List.count_append, List.count_eq_zero.mpr h]
    simp
  exact websocket_loop_registry websocket trace (conns ++ [websocket]) hc

/-- Witness for C9's amended statement: session 7 joins an empty registry,
the transport disconnects, and the registry no longer contains it. -/
theorem websocket_endpoint_amended_witness :
    (websocket_endpoint 7 [WsEvent.recvDisconnectExc] []).1.count 7 = 0 :=
  (websocket_endpoint_amended 7 [WsEvent.recvDisconnectExc] [] (by decide)).1 (by decide)

/-- C7: when the engine cache is empty and construction fails, the failure
surfaces to the caller as a 503 `HTTPException` carrying the underlying
construction error, no event is emitted (in particular no error broadcast),
the cache slot stays empty, and the very next request with working
construction succeeds in constructing and caching the engine. -/
theorem engine_unavailable_surfaced_and_not_sticky
    (env env2 : Env) (st : GState) (req req2 : RefineRequest)
    (hne : pyStrip req.manuscriptText.data ≠ [])
    (hnone : st.nlp_processor = none) (hbad : env.nlpOk = false)
    (hne2 : pyStrip req2.manuscriptText.data ≠ [])
    (hok2 : env2.nlpOk = true) :
    refine env st req =
      ⟨st, [], .exc (.http 503 ("NLP processor unavailable: " ++ env.nlpErr))⟩ ∧
    (refine env2 (refine env st req).state req2).state.nlp_processor =
      some ⟨applyOverrides st.default_settings req2⟩ := by
  have h1 : refine env st req =
      ⟨st, [], .exc (.http 503 ("NLP processor unavailable: " ++ env.nlpErr))⟩ := by
    unfold refine
    rw [if_neg (nonempty_guard_false req hne), get_refiner_fails env st _ hnone hbad]
  refine ⟨h1, ?_⟩
  have hs : (refine env st req).state = st := by rw [h1]
  rw [hs, refine_state_constructs env2 st req2 hne2 hnone hok2]

/-- Witness for C7: construction fails with error text `boom` on the first
request and the retry constructs and caches the engine. -/
theorem engine_unavailable_surfaced_and_not_sticky_witness :
    refine ⟨false, "boom", .ok "", .ok "", .ok "", true⟩ sampleState ⟨"hello", none, none⟩ =
      ⟨sampleState, [], .exc (.http 503 ("NLP processor unavailable: " ++ "boom"))⟩ ∧
    (refine happyEnv
        (refine ⟨false, "boom", .ok "", .ok "", .ok "", true⟩ sampleState
          ⟨"hello", none, none⟩).state
        ⟨"world", some 3, some true⟩).state.nlp_processor =
      some ⟨applyOverrides sampleState.default_settings ⟨"world", some 3, some true⟩⟩ :=
  engine_unavailable_surfaced_and_not_sticky
    ⟨false, "boom", .ok "", .ok "", .ok "", true⟩ happyEnv sampleState
    ⟨"hello", none, none⟩ ⟨"world", some 3, some true⟩
    (by decide) rfl rfl (by decide) rfl

/-- An environment whose first stage raises an `HTTPException`, which the
handler's `except HTTPException: raise` clause re-raises unchanged. -/
def httpStageFailEnv : Env :=
  ⟨true, "", .exc (.http 404 "boom"), .ok "Bibliography text", .ok "@article", true⟩

/-- C8 counterexample: a stage failure that is itself an `HTTPException`
(status 404, detail `boom`) is re-raised unchanged by the
`except HTTPException: raise` clause: the events emitted are exactly the
start progress event — no error event, although reporting works — and the
caller receives the 404, not an internal-error (500) failure. -/
theorem stage_http_exception_bypasses_error_event :
    (refine httpStageFailEnv sampleState ⟨"hello", none, none⟩).events = [startEvent] ∧
    (refine httpStageFailEnv sampleState ⟨"hello", none, none⟩).result =
      .exc (.http 404 "boom") := by decide

/-- One of the three stages of the try block raises a non-HTTP exception with
`str(e) = msg` (the stages before it having succeeded). -/
def stageFailsPlain (env : Env) (msg : String) : Prop :=
  env.refineDoc = .exc (.plain msg) ∨
  ((∃ d, env.refineDoc = .ok d) ∧ env.genBibliography = .exc (.plain msg)) ∨
  ((∃ d, env.refineDoc = .ok d) ∧ (∃ b, env.genBibliography = .ok b) ∧
    env.genBibtex = .exc (.plain msg))

theorem refineExceptClauses_plain (st : GState) (evs : List Event) (msg : String) (b : Bool) :
    (refineExceptClauses st evs (.plain msg) b).result = .exc (.http 500 msg) ∧
    (refineExceptClauses st evs (.plain msg) b).events =
      (if b then evs ++ [Event.error ("Refinement failed: " ++ msg)] else evs) := by
  cases b <;> simp [refineExceptClauses]

theorem refineTryBlock_plain_fail (env : Env) (st1 : GState) (msg : String)
    (hfail : stageFailsPlain env msg) :
    (refineTryBlock env st1).result = .exc (.http 500 msg) ∧
    (env.showErrorOk = true →
      Event.error ("Refinement failed: " ++ msg) ∈ (refineTryBlock env st1).events) ∧
    (env.showErrorOk = false →
      Event.error ("Refinement failed: " ++ msg) ∉ (refineTryBlock env st1).events) := by
  rcases hfail with h | ⟨⟨d, hd⟩, h⟩ | ⟨⟨d, hd⟩, ⟨b, hb⟩, h⟩
  · unfold refineTryBlock
    rw [h]
    cases hso : env.showErrorOk <;>
      simp [refineExceptClauses, hso, startEvent]
  · unfold refineTryBlock
    rw [hd, h]
    cases hso : env.showErrorOk <;>
      simp [refineExceptClauses, hso, startEvent, bibEvent]
  · unfold refineTryBlock
    rw [hd, hb, h]
    cases hso : env.showErrorOk <;>
      simp [refineExceptClauses, hso, startEvent, bibEvent]

/-- C8 amended: for every submit request failing during stage execution with
a failure that is not itself an `HTTPException`, the caller receives a 500
internal error carrying the underlying `str(e)` detail, an error event is
emitted best-effort (present when reporting works, absent when reporting
itself fails, and in either case the original 500 is not masked), and no
partial result is returned; a stage failure that is an `HTTPException` is
instead re-raised unchanged with no error event, as the counterexample
shows. -/
theorem stage_failure_reported_and_no_partial_result
    (env : Env) (st : GState) (req : RefineRequest) (msg : String)
    (hne : pyStrip req.manuscriptText.data ≠ [])
    (hacq : (∃ p, st.nlp_processor = some p) ∨ (st.nlp_processor = none ∧ env.nlpOk = true))
    (hfail : stageFailsPlain env msg) :
    (refine env st req).result = .exc (.http 500 msg) ∧
    (env.showErrorOk = true →
      Event.error ("Refinement failed: " ++ msg) ∈ (refine env st req).events) ∧
    (env.showErrorOk = false →
      Event.error ("Refinement failed: " ++ msg) ∉ (refine env st req).events) := by
  rcases hacq with ⟨p, hp⟩ | ⟨hnone, hok⟩
  · unfold refine
    rw [if_neg (nonempty_guard_false req hne), get_refiner_cached env st _ p hp]
    exact refineTryBlock_plain_fail env st msg hfail
  · unfold refine
    rw [if_neg (nonempty_guard_false req hne), get_refiner_constructs env st _ hnone hok]
    exact refineTryBlock_plain_fail env _ msg hfail

/-- An environment whose second stage raises a plain exception. -/
def plainStageFailEnv : Env :=
  ⟨true, "", .ok "Refined document text", .exc (.plain "kaboom"), .ok "@article", true⟩

/-- Witness for C8's amended statement: the bibliography stage raises
`kaboom`, the caller gets a 500 carrying it, and the error event is
broadcast. -/
theorem stage_failure_reported_witness :
    (refine plainStageFailEnv sampleState ⟨"hello", none, none⟩).result =
      .exc (.http 500 "kaboom") ∧
    (plainStageFailEnv.showErrorOk = true →
      Event.error ("Refinement failed: " ++ "kaboom") ∈
        (refine plainStageFailEnv sampleState ⟨"hello", none, none⟩).events) ∧
    (plainStageFailEnv.showErrorOk = false →
      Event.error ("Refinement failed: " ++ "kaboom") ∉
        (refine plainStageFailEnv sampleState ⟨"hello", none, none⟩).events) :=
  stage_failure_reported_and_no_partial_result plainStageFailEnv sampleState
    ⟨"hello", none, none⟩ "kaboom" (by decide) (Or.inr ⟨rfl, rfl⟩)
    (Or.inr (Or.inl ⟨⟨"Refined document text", rfl⟩, rfl⟩))

/-- C10: with an empty cache, the first non-empty request constructs the
engine with its own overridden settings and stores it in the process-wide
slot; a subsequent request — whatever its own overrides and environment —
leaves the cached engine unchanged and is handed a freshly built per-job
refiner wrapper carrying its own settings but the originally cached
processor. -/
theorem engine_cached_once_and_reused
    (env1 env2 : Env) (st : GState) (req1 req2 : RefineRequest)
    (h1 : pyStrip req1.manuscriptText.data ≠ [])
    (hnone : st.nlp_processor = none) (hok1 : env1.nlpOk = true) :
    (refine env1 st req1).state.nlp_processor =
      some ⟨applyOverrides st.default_settings req1⟩ ∧
    (refine env2 (refine env1 st req1).state req2).state.nlp_processor =
      some ⟨applyOverrides st.default_settings req1⟩ ∧
    (get_refiner env2 (refine env1 st req1).state
        (some (applyOverrides st.default_settings req2))).2 =
      .ok ⟨applyOverrides st.default_settings req2,
        ⟨applyOverrides st.default_settings req1⟩⟩ := by
  have hst1 : (refine env1 st req1).state =
      { st with nlp_processor := some ⟨applyOverrides st.default_settings req1⟩ } :=
    refine_state_constructs env1 st req1 h1 hnone hok1
  refine ⟨by rw [hst1], ?_, ?_⟩
  · rw [hst1, refine_state_cached env2 _ req2 ⟨applyOverrides st.default_settings req1⟩ rfl]
  · rw [hst1, get_refiner_cached env2 _ _ ⟨applyOverrides st.default_settings req1⟩ rfl]
    rfl

/-- A second-request environment with behaviour different from `happyEnv`. -/
def secondEnv : Env := ⟨true, "", .ok "R2", .ok "B2", .ok "X2", false⟩

/-- Witness for C10: request 1 (`maxResults = 10`, `noCache = true`) builds
and caches the engine; request 2 (`maxResults = 3`, no `noCache`) reuses it
while its refiner wrapper gets request 2's settings. -/
theorem engine_cached_once_and_reused_witness :
    (refine happyEnv sampleState ⟨"hello", some 10, some true⟩).state.nlp_processor =
      some ⟨applyOverrides sampleState.default_settings ⟨"hello", some 10, some true⟩⟩ ∧
    (refine secondEnv (refine happyEnv sampleState ⟨"hello", some 10, some true⟩).state
        ⟨"world", some 3, none⟩).state.nlp_processor =
      some ⟨applyOverrides sampleState.default_settings ⟨"hello", some 10, some true⟩⟩ ∧
    (get_refiner secondEnv (refine happyEnv sampleState ⟨"hello", some 10, some true⟩).state
        (some (applyOverrides sampleState.default_settings ⟨"world", some 3, none⟩))).2 =
      .ok ⟨applyOverrides sampleState.default_settings ⟨"world", some 3, none⟩,
        ⟨applyOverrides sampleState.default_settings ⟨"hello", some 10, some true⟩⟩⟩ :=
  engine_cached_once_and_reused happyEnv secondEnv sampleState
    ⟨"hello", some 10, some true⟩ ⟨"world", some 3, none⟩ (by decide) rfl rfl

end RefScore
